import Mathlib

/-!
Verification of the Thunderbolt controller power-sequencing driver
(drivers/thunderbolt/power.c and drivers/thunderbolt/upstream.c).

The repository contains two parallel variants of the same power sequencer:
power.c installs the callbacks as a PCI power domain on the upstream
bridge, upstream.c is a PCIe port-service driver.  Both are embedded
here, power.c under namespace `Power` and upstream.c under namespace
`Upstream`.

ACPI firmware calls (the XRPE/TRPE set-power method, the XRIL query
method, GPE enable/disable) and the generic PM operations are modelled
by boolean oracles recording the outcome of each call.  Each callback
returns its status code, the ordered list of observable operations it
performed, and the updated device state, so that ordering claims and
state claims can both be expressed.
-/

/-- Observable operations performed by a power-management callback, in
program order.  `setPower turnOn ok` is a call to the XRPE/TRPE power
switch method with argument 1 (`turnOn = true`) or 0, recording whether
the ACPI call succeeded; `getPower r` is a call to the XRIL power-query
method (`none` models an ACPI failure, `some b` a successful call
reporting powered-down = `b`); `enableGpe` / `disableGpe` arm and
disarm the wake GPE; `genericSuspend` / `genericResume` are the bus
runtime-PM operations invoked by power.c; `getNoresumeNhi` is
`pm_runtime_get_noresume` on the NHI device. -/
inductive Event
  | setPower (turnOn ok : Bool)
  | getPower (result : Option Bool)
  | enableGpe (ok : Bool)
  | disableGpe (ok : Bool)
  | genericSuspend (ok : Bool)
  | genericResume
  | saveState
  | restoreState
  | setD3coldChildren
  | requestResumeChildren
  | requestResumeSelf
  | getNoresumeNhi
  deriving DecidableEq

/-- Device / controller state visible to the power-sequencing callbacks.
`powered` is the controller power rail (true = powered up), `armed`
whether the wake GPE is enabled, `runtimeActive` the framework's
runtime-PM status (`pm_runtime_active`), `isPrepared` the
`dev->power.is_prepared` flag set during a system sleep transition,
`runtimeError` the `dev->power.runtime_error` field, `nhiNoresume` the
number of `pm_runtime_get_noresume` references taken on the NHI, and
`d3coldAllowed` the PCI `d3cold_allowed` capability bit. -/
structure Dev where
  powered : Bool
  armed : Bool
  runtimeActive : Bool
  isPrepared : Bool
  runtimeError : Option Int
  nhiNoresume : Nat
  d3coldAllowed : Bool
  deriving DecidableEq

/-- errno EAGAIN (returns are negated, as in the kernel). -/
def EAGAIN : Int := 11

/-- errno EIO. -/
def EIO_code : Int := 5

/-- errno ENODEV. -/
def ENODEV : Int := 19

/-- errno ESHUTDOWN. -/
def ESHUTDOWN : Int := 108

/-- Positive return value from a ->prepare callback requesting the
direct-complete optimization. -/
def DPM_DIRECT_COMPLETE : Int := 1

/-- system_state value SYSTEM_HALT; states at or above it mean the
system is shutting down (SYSTEM_BOOTING = 0, SYSTEM_RUNNING = 1,
SYSTEM_HALT = 2, SYSTEM_POWER_OFF = 3, SYSTEM_RESTART = 4). -/
def SYSTEM_HALT : Nat := 2

/-- Oracle for a prepare callback: outcome of `acpi_disable_gpe`. -/
structure PrepareFw where
  disableOk : Bool
  deriving DecidableEq

/-- Oracle for a complete callback: outcomes of the set-power(0) reset
pulse and of `acpi_enable_gpe`. -/
structure CompleteFw where
  setOffOk : Bool
  enableOk : Bool
  deriving DecidableEq

/-- Oracle for a runtime-suspend callback: outcome of the generic bus
runtime suspend, of the set-power(0) call, of each power-query poll
attempt (`get i` for the i-th attempt, `none` = ACPI failure of the
call itself, `some b` = call succeeded reporting powered-down = b), of
`acpi_enable_gpe`, and of the rollback set-power(1) call. -/
structure SuspendFw where
  genericOk : Bool
  setOffOk : Bool
  get : Nat → Option Bool
  enableOk : Bool
  setOnOk : Bool

/-- Oracle for a runtime-resume callback: outcomes of
`acpi_disable_gpe`, of the set-power(1) call and of the generic bus
runtime resume. -/
structure ResumeFw where
  disableOk : Bool
  setOnOk : Bool
  genericOk : Bool
  deriving DecidableEq

/-- The bounded power-state poll shared by both runtime_suspend
variants (`for (i = 0; i < 300; i++)` over `acpi_evaluate_integer` of
the XRIL method).  Returns the final value of the `powered_down` flag
(`none` models an ACPI failure of the get method aborting the loop,
`some true` a confirmed power-down, `some false` fuel exhaustion with
the controller still reporting powered up) together with the list of
`getPower` events issued, in order. -/
def pollAux (get : Nat → Option Bool) : Nat → Nat → Option Bool × List Event
  | _, 0 => (some false, [])
  | i, fuel + 1 =>
    match get i with
    | none => (none, [Event.getPower none])
    | some true => (some true, [Event.getPower (some true)])
    | some false =>
      let r := pollAux get (i + 1) fuel
      (r.1, Event.getPower (some false) :: r.2)

/-- Number of firmware power-query invocations made by the poll loop. -/
def pollCalls (get : Nat → Option Bool) : Nat :=
  (pollAux get 0 300).2.length

namespace Power

/-- Shallow embedding of `upstream_prepare` in power.c: if the device
is runtime active, return 0; otherwise disarm the wake GPE; on ACPI
failure request a resume and return -EAGAIN, on success return
DPM_DIRECT_COMPLETE. -/
def upstream_prepare (fw : PrepareFw) (s : Dev) : Int × List Event × Dev :=
  if s.runtimeActive then (0, [], s)
  else if fw.disableOk then
    (DPM_DIRECT_COMPLETE, [Event.disableGpe true], { s with armed := false })
  else
    (-EAGAIN, [Event.disableGpe false, Event.requestResumeSelf], s)

/-- Shallow embedding of `upstream_complete` in power.c: no-op if the
device is runtime active; otherwise reissue set-power(0) once as a
reset pulse (recording -EIO in runtime_error on failure) and then
re-enable the wake GPE (requesting a resume on failure).  The callback
has no error return (it is `void` in the source). -/
def upstream_complete (fw : CompleteFw) (s : Dev) : List Event × Dev :=
  if s.runtimeActive then ([], s)
  else
    let t :=
      if fw.setOffOk then ([Event.setPower false true], s)
      else ([Event.setPower false false], { s with runtimeError := some (-EIO_code) })
    if fw.enableOk then (t.1 ++ [Event.enableGpe true], { t.2 with armed := true })
    else (t.1 ++ [Event.enableGpe false, Event.requestResumeSelf], t.2)

/-- The `err_resume` label of `upstream_runtime_suspend` in power.c:
reissue set-power(1) (result ignored by the source), undo the generic
runtime suspend, request resume of every child, return -EAGAIN. -/
def rollback (fw : SuspendFw) (pre : List Event) (s : Dev) : Int × List Event × Dev :=
  (-EAGAIN,
   pre ++ [Event.setPower true fw.setOnOk, Event.genericResume, Event.requestResumeChildren],
   { s with powered := if fw.setOnOk then true else s.powered, runtimeActive := true })

/-- Shallow embedding of `upstream_runtime_suspend` in power.c: mark
children D3cold, run the generic bus runtime suspend (on failure
request children resume and return its error), issue set-power(0),
poll XRIL up to 300 times for confirmed power-down, then enable the
wake GPE; any failure after the generic suspend branches to the
rollback. -/
def upstream_runtime_suspend (fw : SuspendFw) (s : Dev) : Int × List Event × Dev :=
  if fw.genericOk = false then
    (-EIO_code,
     [Event.setD3coldChildren, Event.genericSuspend false, Event.requestResumeChildren],
     { s with runtimeActive := true })
  else if fw.setOffOk = false then
    rollback fw [Event.setD3coldChildren, Event.genericSuspend true, Event.setPower false false]
      { s with runtimeActive := false }
  else
    let p := pollAux fw.get 0 300
    let pre := [Event.setD3coldChildren, Event.genericSuspend true,
                Event.setPower false true] ++ p.2
    let s1 : Dev := { s with runtimeActive := false, powered := false }
    if p.1 = some true then
      if fw.enableOk then (0, pre ++ [Event.enableGpe true], { s1 with armed := true })
      else rollback fw (pre ++ [Event.enableGpe false]) s1
    else
      rollback fw pre s1

/-- Shallow embedding of `upstream_runtime_resume` in power.c: unless
the device is mid system-sleep (`is_prepared`), disarm the wake GPE,
taking a permanent noresume reference on the NHI if disarming fails;
issue set-power(1), returning -ENODEV on failure; otherwise run the
generic bus runtime resume and request resume of all children,
propagating the generic resume's return value. -/
def upstream_runtime_resume (fw : ResumeFw) (s : Dev) : Int × List Event × Dev :=
  let t :=
    if s.isPrepared then (([] : List Event), s)
    else if fw.disableOk then ([Event.disableGpe true], { s with armed := false })
    else ([Event.disableGpe false, Event.getNoresumeNhi],
          { s with nhiNoresume := s.nhiNoresume + 1 })
  if fw.setOnOk = false then
    (-ENODEV, t.1 ++ [Event.setPower true false], t.2)
  else
    ((if fw.genericOk then 0 else -EIO_code),
     t.1 ++ [Event.setPower true true, Event.genericResume, Event.requestResumeChildren],
     { t.2 with powered := true, runtimeActive := fw.genericOk })

/-- Environment for `thunderbolt_power_init`: which allocation, handle
and firmware lookups succeed (`xrpeOk` / `trpeOk` for the two aliases
of the set method, `xrilOk` for the get method, `xrinOk` for the wake
GPE number, `installOk` for `acpi_install_gpe_handler`). -/
structure InitEnv where
  allocOk : Bool
  nhiHandleOk : Bool
  upstreamOk : Bool
  xrpeOk : Bool
  trpeOk : Bool
  xrilOk : Bool
  xrinOk : Bool
  installOk : Bool
  deriving DecidableEq

/-- The power context built by a successful attach: records which
alias resolved the set method and that the pm_domain callback set was
installed on the upstream bridge. -/
structure PowerCtx where
  usesXrpe : Bool
  pmDomainInstalled : Bool
  deriving DecidableEq

/-- Shallow embedding of `thunderbolt_power_init` in power.c: every
failed lookup branches to `err_free`, which frees the context and
leaves `tb->power` null (modelled as `none`); only if allocation, the
ACPI handle, the upstream bridge, the set method (under XRPE or TRPE),
the get method, the wake GPE number and the GPE handler installation
all succeed is the pm_domain installed and the context kept. -/
def thunderbolt_power_init (env : InitEnv) : Option PowerCtx :=
  if env.allocOk = false then none
  else if env.nhiHandleOk = false then none
  else if env.upstreamOk = false then none
  else if env.xrpeOk = false ∧ env.trpeOk = false then none
  else if env.xrilOk = false then none
  else if env.xrinOk = false then none
  else if env.installOk = false then none
  else some { usesXrpe := env.xrpeOk, pmDomainInstalled := true }

end Power

namespace Upstream

/-- Shallow embedding of `upstream_prepare` in upstream.c: if the port
is runtime suspended, disarm the wake GPE, requesting a resume on
failure; always return 0. -/
def upstream_prepare (fw : PrepareFw) (s : Dev) : Int × List Event × Dev :=
  if s.runtimeActive = false then
    if fw.disableOk then (0, [Event.disableGpe true], { s with armed := false })
    else (0, [Event.disableGpe false, Event.requestResumeSelf], s)
  else (0, [], s)

/-- Shallow embedding of `upstream_complete` in upstream.c: no-op if
the port is runtime active; otherwise reissue set-power(0) once as a
reset pulse (recording -ENODEV in runtime_error on failure) and then
re-enable the wake GPE (requesting a resume on failure); always
returns 0. -/
def upstream_complete (fw : CompleteFw) (s : Dev) : Int × List Event × Dev :=
  if s.runtimeActive then (0, [], s)
  else
    let t :=
      if fw.setOffOk then ([Event.setPower false true], s)
      else ([Event.setPower false false], { s with runtimeError := some (-ENODEV) })
    if fw.enableOk then (0, t.1 ++ [Event.enableGpe true], { t.2 with armed := true })
    else (0, t.1 ++ [Event.enableGpe false, Event.requestResumeSelf], t.2)

/-- The `err` label of `upstream_runtime_suspend` in upstream.c:
reissue set-power(1) (result ignored by the source), restore the
port's config state, mark children D3hot and request their resume,
return -EAGAIN. -/
def rollback (fw : SuspendFw) (pre : List Event) (s : Dev) : Int × List Event × Dev :=
  (-EAGAIN,
   pre ++ [Event.setPower true fw.setOnOk, Event.restoreState, Event.requestResumeChildren],
   { s with powered := if fw.setOnOk then true else s.powered, runtimeActive := true })

/-- Shallow embedding of `upstream_runtime_suspend` in upstream.c:
refuse with -EAGAIN before doing anything if d3cold is not allowed;
otherwise save the port's config state, mark the bus D3cold, issue
set-power(0), poll XRIL up to 300 times for confirmed power-down,
then enable the wake GPE; any failure branches to the rollback. -/
def upstream_runtime_suspend (fw : SuspendFw) (s : Dev) : Int × List Event × Dev :=
  if s.d3coldAllowed = false then (-EAGAIN, [], s)
  else if fw.setOffOk = false then
    rollback fw [Event.saveState, Event.setD3coldChildren, Event.setPower false false]
      { s with runtimeActive := false }
  else
    let p := pollAux fw.get 0 300
    let pre := [Event.saveState, Event.setD3coldChildren, Event.setPower false true] ++ p.2
    let s1 : Dev := { s with runtimeActive := false, powered := false }
    if p.1 = some true then
      if fw.enableOk then (0, pre ++ [Event.enableGpe true], { s1 with armed := true })
      else rollback fw (pre ++ [Event.enableGpe false]) s1
    else
      rollback fw pre s1

/-- Shallow embedding of `upstream_runtime_resume` in upstream.c:
refuse with -ESHUTDOWN before doing anything if `system_state` is at
or past SYSTEM_HALT; otherwise disarm the wake GPE (taking a permanent
noresume reference on the NHI if disarming fails), issue set-power(1)
(returning -ENODEV on failure), restore the port's config state and
request resume of all children. -/
def upstream_runtime_resume (st : Nat) (fw : ResumeFw) (s : Dev) : Int × List Event × Dev :=
  if SYSTEM_HALT ≤ st then (-ESHUTDOWN, [], s)
  else
    let t :=
      if fw.disableOk then ([Event.disableGpe true], { s with armed := false })
      else ([Event.disableGpe false, Event.getNoresumeNhi],
            { s with nhiNoresume := s.nhiNoresume + 1 })
    if fw.setOnOk = false then (-ENODEV, t.1 ++ [Event.setPower true false], t.2)
    else
      (0, t.1 ++ [Event.setPower true true, Event.restoreState, Event.requestResumeChildren],
       { t.2 with powered := true, runtimeActive := true })

end Upstream

/-- One framework-driven callback invocation with its firmware oracle
(the power.c pm_domain variant). -/
inductive Call
  | prepareCall (fw : PrepareFw)
  | completeCall (fw : CompleteFw)
  | rtSuspend (fw : SuspendFw)
  | rtResume (fw : ResumeFw)

/-- Framework-level step semantics for the power.c callbacks.  The PM
core serializes transitions: a runtime suspend is only issued on a
runtime-active device and a runtime resume on a suspended one (both
are no-ops otherwise); a successful prepare marks the device prepared
until the matching complete. -/
def step (s : Dev) : Call → Dev
  | Call.prepareCall fw =>
    let r := Power.upstream_prepare fw s
    if r.1 < 0 then r.2.2 else { r.2.2 with isPrepared := true }
  | Call.completeCall fw => { (Power.upstream_complete fw s).2 with isPrepared := false }
  | Call.rtSuspend fw =>
    if s.runtimeActive then (Power.upstream_runtime_suspend fw s).2.2 else s
  | Call.rtResume fw =>
    if s.runtimeActive then s else (Power.upstream_runtime_resume fw s).2.2

/-- The list of device states observed after each callback of a
sequence, in order. -/
def statesAlong (s : Dev) : List Call → List Dev
  | [] => []
  | c :: cs => step s c :: statesAlong (step s c) cs

/-- The state established by a successful attach: controller powered,
wake GPE handler installed but the GPE not enabled, device runtime
active, nothing prepared. -/
def attachedActive : Dev :=
  { powered := true, armed := false, runtimeActive := true, isPrepared := false,
    runtimeError := none, nhiNoresume := 0, d3coldAllowed := true }

/-- Runtime calls whose firmware oracles never fail at the points the
sequencer cannot recover from: a runtime suspend whose rollback
set-power(1) succeeds, and a runtime resume whose GPE disarm and
set-power(1) succeed (the generic runtime resume may still fail).
System-sleep callbacks are excluded. -/
def goodCall : Call → Bool
  | Call.rtSuspend fw => fw.setOnOk
  | Call.rtResume fw => fw.disableOk && fw.setOnOk
  | _ => false

/-- The claimed invariant: the controller is powered down exactly when
the wake GPE is armed. -/
def wakeInv (s : Dev) : Prop := s.powered = false ↔ s.armed = true

/-- Strengthened inductive invariant: the wake GPE armed state is the
negation of the power state, the framework only regards the device as
runtime active while the controller is powered (a failed generic
resume can leave a powered-up device marked suspended, but never the
converse), and no system sleep is in progress. -/
def auxInv (s : Dev) : Prop :=
  s.armed = !s.powered ∧ (s.runtimeActive = true → s.powered = true) ∧
    s.isPrepared = false

theorem wakeInv_of_auxInv (s : Dev) (h : auxInv s) : wakeInv s := by
  obtain ⟨h1, _, _⟩ := h
  constructor
  · intro hp
    rw [h1, hp]
    rfl
  · intro ha
    cases hp : s.powered
    · rfl
    · rw [h1, hp] at ha
      exact absurd ha (by decide)

theorem pollAux_length_le (get : Nat → Option Bool) (i fuel : Nat) :
    (pollAux get i fuel).2.length ≤ fuel := by
  induction fuel generalizing i with
  | zero => simp [pollAux]
  | succ n ih =>
    simp only [pollAux]
    cases h : get i with
    | none => simp
    | some b =>
      cases b with
      | true => simp
      | false =>
        simp only [List.length_cons]
        exact Nat.succ_le_succ (ih (i + 1))

theorem pollAux_all_false (get : Nat → Option Bool) (i fuel : Nat)
    (h : ∀ k, k < fuel → get (i + k) = some false) :
    (pollAux get i fuel).1 = some false := by
  induction fuel generalizing i with
  | zero => simp [pollAux]
  | succ n ih =>
    have h0 : get i = some false := by simpa using h 0 (Nat.succ_pos n)
    simp only [pollAux, h0]
    refine ih (i + 1) (fun k hk => ?_)
    have h2 := h (k + 1) (Nat.succ_lt_succ hk)
    have h3 : i + (k + 1) = i + 1 + k := by omega
    rwa [h3] at h2

theorem pollAux_some_true_iff (get : Nat → Option Bool) (i fuel : Nat)
    (htot : ∀ k, k < fuel → (get (i + k)).isSome = true) :
    (pollAux get i fuel).1 = some true ↔ ∃ k, k < fuel ∧ get (i + k) = some true := by
  induction fuel generalizing i with
  | zero => simp [pollAux]
  | succ n ih =>
    cases h : get i with
    | none =>
      have h1 := htot 0 (Nat.succ_pos n)
      rw [Nat.add_zero, h] at h1
      exact absurd h1 (by simp)
    | some b =>
      cases b with
      | true =>
        simp only [pollAux, h]
        constructor
        · intro _
          exact ⟨0, Nat.succ_pos n, by simpa using h⟩
        · intro _
          trivial
      | false =>
        simp only [pollAux, h]
        have htot2 : ∀ k, k < n → (get (i + 1 + k)).isSome = true := by
          intro k hk
          have h2 := htot (k + 1) (Nat.succ_lt_succ hk)
          have h3 : i + (k + 1) = i + 1 + k := by omega
          rwa [h3] at h2
        rw [ih (i + 1) htot2]
        constructor
        · rintro ⟨k, hk, hget⟩
          refine ⟨k + 1, Nat.succ_lt_succ hk, ?_⟩
          have h3 : i + (k + 1) = i + 1 + k := by omega
          rwa [h3]
        · rintro ⟨k, hk, hget⟩
          cases k with
          | zero =>
            rw [Nat.add_zero, h] at hget
            exact absurd hget (by simp)
          | succ m =>
            refine ⟨m, Nat.lt_of_succ_lt_succ hk, ?_⟩
            have h3 : i + (m + 1) = i + 1 + m := by omega
            rwa [h3] at hget

theorem suspend_state_cases (fw : SuspendFw) (s : Dev) (hroll : fw.setOnOk = true) :
    (Power.upstream_runtime_suspend fw s).2.2 = { s with runtimeActive := true } ∨
    (Power.upstream_runtime_suspend fw s).2.2 =
      { s with runtimeActive := true, powered := true } ∨
    (Power.upstream_runtime_suspend fw s).2.2 =
      { s with runtimeActive := false, powered := false, armed := true } := by
  by_cases hg : fw.genericOk = false
  · left
    simp [Power.upstream_runtime_suspend, hg]
  · by_cases hso : fw.setOffOk = false
    · right; left
      simp [Power.upstream_runtime_suspend, Power.rollback, hg, hso, hroll]
    · by_cases hq : (pollAux fw.get 0 300).1 = some true
      · by_cases he : fw.enableOk = true
        · right; right
          simp [Power.upstream_runtime_suspend, hg, hso, hq, he]
        · right; left
          simp [Power.upstream_runtime_suspend, Power.rollback, hg, hso, hq, he, hroll]
      · right; left
        simp [Power.upstream_runtime_suspend, Power.rollback, hg, hso, hq, hroll]

theorem resume_state (fw : ResumeFw) (s : Dev) (hprep : s.isPrepared = false)
    (hd : fw.disableOk = true) (hon : fw.setOnOk = true) :
    (Power.upstream_runtime_resume fw s).2.2 =
      { s with armed := false, powered := true, runtimeActive := fw.genericOk } := by
  unfold Power.upstream_runtime_resume
  simp [hprep, hd, hon]

theorem auxInv_step (s : Dev) (c : Call) (hs : auxInv s) (hc : goodCall c = true) :
    auxInv (step s c) := by
  obtain ⟨h1, h2, h3⟩ := hs
  cases c with
  | prepareCall fw => simp [goodCall] at hc
  | completeCall fw => simp [goodCall] at hc
  | rtSuspend fw =>
    simp only [goodCall] at hc
    by_cases ha : s.runtimeActive = true
    · have hp : s.powered = true := h2 ha
      have harm : s.armed = false := by rw [h1, hp]; rfl
      simp only [step, ha, if_true]
      rcases suspend_state_cases fw s hc with hcase | hcase | hcase
      · rw [hcase]
        exact ⟨h1, fun _ => hp, h3⟩
      · rw [hcase]
        exact ⟨harm, fun _ => rfl, h3⟩
      · rw [hcase]
        exact ⟨rfl, fun hx => hx, h3⟩
    · rw [Bool.not_eq_true] at ha
      simp only [step, ha, Bool.false_eq_true, if_false]
      exact ⟨h1, h2, h3⟩
  | rtResume fw =>
    simp only [goodCall, Bool.and_eq_true] at hc
    obtain ⟨hd, hon⟩ := hc
    by_cases ha : s.runtimeActive = true
    · simp only [step, ha, if_true]
      exact ⟨h1, h2, h3⟩
    · rw [Bool.not_eq_true] at ha
      simp only [step, ha, Bool.false_eq_true, if_false]
      rw [resume_state fw s h3 hd hon]
      exact ⟨rfl, fun _ => rfl, h3⟩

theorem auxInv_statesAlong (s : Dev) (calls : List Call) (hs : auxInv s)
    (hc : ∀ c ∈ calls, goodCall c = true) :
    ∀ t ∈ statesAlong s calls, auxInv t := by
  induction calls generalizing s with
  | nil =>
    intro t ht
    simp [statesAlong] at ht
  | cons c cs ih =>
    intro t ht
    have hstep := auxInv_step s c hs (hc c (List.mem_cons_self c cs))
    simp only [statesAlong, List.mem_cons] at ht
    rcases ht with rfl | ht
    · exact hstep
    · exact ih (step s c) hstep (fun d hd => hc d (List.mem_cons_of_mem c hd)) t ht

/-- C1 (amended): for every sequence of runtimeSuspend / runtimeResume
callback invocations starting from the attached Active state, in which
each suspend's rollback power-on call succeeds and each resume's wake
GPE disarm and power-on calls succeed (generic runtime resumes may
fail), after each callback returns the controller is powered down if
and only if the wake GPE is armed.  (The equivalence is deliberately
broken by the system-sleep callbacks: a successful prepare on a
runtime-suspended device disarms the GPE while the controller stays
powered down, until the matching complete re-arms it; see the
counterexample.) -/
theorem C1_wake_invariant_runtime (calls : List Call)
    (hc : ∀ c ∈ calls, goodCall c = true) :
    ∀ t ∈ statesAlong attachedActive calls, (t.powered = false ↔ t.armed = true) := by
  intro t ht
  exact wakeInv_of_auxInv t
    (auxInv_statesAlong attachedActive calls ⟨rfl, fun _ => rfl, rfl⟩ hc t ht)

/-- Firmware oracle for a runtime suspend in which every call succeeds
and the first power query already confirms power-down. -/
def fwSuspendOk : SuspendFw :=
  { genericOk := true, setOffOk := true, get := fun _ => some true,
    enableOk := true, setOnOk := true }

/-- Firmware oracle for a runtime resume in which every call succeeds. -/
def fwResumeOk : ResumeFw := { disableOk := true, setOnOk := true, genericOk := true }

/-- A fully successful runtime suspend followed by a fully successful
prepare for system sleep. -/
def cexCalls : List Call :=
  [Call.rtSuspend fwSuspendOk, Call.prepareCall { disableOk := true }]

/-- C1: the claim as stated over all four callbacks is false: after a
fully successful runtime suspend followed by a fully successful
prepare, the controller is powered down but the wake GPE has been
disarmed, so poweredDown holds without the wake channel being armed. -/
theorem C1_counterexample :
    ¬ ∀ t ∈ statesAlong attachedActive cexCalls, (t.powered = false ↔ t.armed = true) := by
  decide

/-- A fully successful runtime suspend followed by a fully successful
runtime resume. -/
def goodCallsEx : List Call := [Call.rtSuspend fwSuspendOk, Call.rtResume fwResumeOk]

theorem C1_wake_invariant_runtime_witness :
    (∀ c ∈ goodCallsEx, goodCall c = true) ∧
      ((step attachedActive (Call.rtSuspend fwSuspendOk)).powered = false ↔
        (step attachedActive (Call.rtSuspend fwSuspendOk)).armed = true) :=
  ⟨by decide, C1_wake_invariant_runtime goodCallsEx (by decide)
      (step attachedActive (Call.rtSuspend fwSuspendOk)) (by decide)⟩

/-- C2: every runtime suspend in power.c that fails at any step after
the generic suspend (set-power(0) failure, a power-query call failure
or poll exhaustion, or a wake GPE arm failure) rolls back completely:
the set-power(1) call is reissued, the generic runtime suspend is
undone, resume is requested for every child, the retryable -EAGAIN is
returned, and — given that the reissued power-on call succeeds — the
device is left in exactly the externally observable active state it
had before the attempt. -/
theorem C2_suspend_rollback (fw : SuspendFw) (s : Dev)
    (hg : fw.genericOk = true)
    (hfail : fw.setOffOk = false ∨ (pollAux fw.get 0 300).1 ≠ some true ∨
      fw.enableOk = false)
    (hroll : fw.setOnOk = true)
    (hpow : s.powered = true) (ha : s.runtimeActive = true) :
    (Power.upstream_runtime_suspend fw s).1 = -EAGAIN ∧
    Event.setPower true true ∈ (Power.upstream_runtime_suspend fw s).2.1 ∧
    Event.genericResume ∈ (Power.upstream_runtime_suspend fw s).2.1 ∧
    Event.requestResumeChildren ∈ (Power.upstream_runtime_suspend fw s).2.1 ∧
    (Power.upstream_runtime_suspend fw s).2.2 = s := by
  have hg' : ¬ fw.genericOk = false := by simp [hg]
  obtain ⟨sp, sa, sr, sip, sre, snn, sd3⟩ := s
  dsimp only at hpow ha
  subst hpow
  subst ha
  by_cases hso : fw.setOffOk = false
  · simp [Power.upstream_runtime_suspend, Power.rollback, hg', hso, hroll]
  · by_cases hq : (pollAux fw.get 0 300).1 = some true
    · have he : fw.enableOk = false := by
        rcases hfail with h | h | h
        · exact absurd h hso
        · exact absurd hq h
        · exact h
      have he' : ¬ fw.enableOk = true := by simp [he]
      simp [Power.upstream_runtime_suspend, Power.rollback, hg', hso, hq, he', hroll]
    · simp [Power.upstream_runtime_suspend, Power.rollback, hg', hso, hq, hroll]

/-- Runtime-suspend oracle whose wake GPE arm call fails after a
confirmed power-down. -/
def fwC2 : SuspendFw :=
  { genericOk := true, setOffOk := true, get := fun _ => some true,
    enableOk := false, setOnOk := true }

theorem C2_suspend_rollback_witness :
    (Power.upstream_runtime_suspend fwC2 attachedActive).1 = -EAGAIN ∧
    Event.setPower true true ∈ (Power.upstream_runtime_suspend fwC2 attachedActive).2.1 ∧
    Event.genericResume ∈ (Power.upstream_runtime_suspend fwC2 attachedActive).2.1 ∧
    Event.requestResumeChildren ∈
      (Power.upstream_runtime_suspend fwC2 attachedActive).2.1 ∧
    (Power.upstream_runtime_suspend fwC2 attachedActive).2.2 = attachedActive :=
  C2_suspend_rollback fwC2 attachedActive rfl (Or.inr (Or.inr rfl)) rfl rfl rfl

/-- C3: in runtime suspend, the power-state poll invokes the firmware
query at most 300 times (the poll is a structurally bounded recursion,
so it cannot loop forever); when the generic suspend, the power-off
call and the GPE arm succeed and every query call itself succeeds, the
operation succeeds — and arms the wake GPE — if and only if some
attempt among the 300 reports powered-down (the 300th attempt
included), and if all 300 attempts report still powered-up it returns
the retryable -EAGAIN rollback, reissuing the power-on call. -/
theorem C3_poll_bound (fw : SuspendFw) (s : Dev)
    (hg : fw.genericOk = true) (hso : fw.setOffOk = true)
    (htot : ∀ k, k < 300 → (fw.get k).isSome = true)
    (hen : fw.enableOk = true) :
    pollCalls fw.get ≤ 300 ∧
    ((Power.upstream_runtime_suspend fw s).1 = 0 ↔
      ∃ k, k < 300 ∧ fw.get k = some true) ∧
    ((Power.upstream_runtime_suspend fw s).1 = 0 →
      Event.enableGpe true ∈ (Power.upstream_runtime_suspend fw s).2.1) ∧
    ((∀ k, k < 300 → fw.get k = some false) →
      (Power.upstream_runtime_suspend fw s).1 = -EAGAIN ∧
      Event.setPower true fw.setOnOk ∈ (Power.upstream_runtime_suspend fw s).2.1) := by
  have hg' : ¬ fw.genericOk = false := by simp [hg]
  have hso' : ¬ fw.setOffOk = false := by simp [hso]
  have htot0 : ∀ k, k < 300 → (fw.get (0 + k)).isSome = true := by
    intro k hk
    simpa using htot k hk
  have hiff := pollAux_some_true_iff fw.get 0 300 htot0
  simp only [Nat.zero_add] at hiff
  refine ⟨pollAux_length_le fw.get 0 300, ?_, ?_, ?_⟩
  · by_cases hq : (pollAux fw.get 0 300).1 = some true
    · have hres : (Power.upstream_runtime_suspend fw s).1 = 0 := by
        simp [Power.upstream_runtime_suspend, hg', hso', hq, hen]
      rw [hres]
      exact iff_of_true rfl (hiff.mp hq)
    · have hres : (Power.upstream_runtime_suspend fw s).1 = -EAGAIN := by
        simp [Power.upstream_runtime_suspend, Power.rollback, hg', hso', hq]
      refine iff_of_false (fun h0 => ?_) (fun hex => hq (hiff.mpr hex))
      rw [hres] at h0
      exact absurd h0 (by decide)
  · intro h0
    by_cases hq : (pollAux fw.get 0 300).1 = some true
    · simp [Power.upstream_runtime_suspend, hg', hso', hq, hen, List.mem_append]
    · have hres : (Power.upstream_runtime_suspend fw s).1 = -EAGAIN := by
        simp [Power.upstream_runtime_suspend, Power.rollback, hg', hso', hq]
      rw [hres] at h0
      exact absurd h0 (by decide)
  · intro hall
    have hq : (pollAux fw.get 0 300).1 = some false := by
      apply pollAux_all_false
      intro k hk
      simpa using hall k hk
    have hq' : ¬ (pollAux fw.get 0 300).1 = some true := by simp [hq]
    constructor
    · simp [Power.upstream_runtime_suspend, Power.rollback, hg', hso', hq']
    · simp [Power.upstream_runtime_suspend, Power.rollback, hg', hso', hq',
        List.mem_append]

/-- Runtime-suspend oracle whose power query reports powered-down only
on the 300th and last poll attempt (index 299). -/
def fwC3 : SuspendFw :=
  { genericOk := true, setOffOk := true,
    get := fun k => if k = 299 then some true else some false,
    enableOk := true, setOnOk := true }

set_option maxRecDepth 4000 in
theorem C3_poll_bound_witness :
    pollCalls fwC3.get ≤ 300 ∧
    ((Power.upstream_runtime_suspend fwC3 attachedActive).1 = 0 ↔
      ∃ k, k < 300 ∧ fwC3.get k = some true) ∧
    ((Power.upstream_runtime_suspend fwC3 attachedActive).1 = 0 →
      Event.enableGpe true ∈ (Power.upstream_runtime_suspend fwC3 attachedActive).2.1) ∧
    ((∀ k, k < 300 → fwC3.get k = some false) →
      (Power.upstream_runtime_suspend fwC3 attachedActive).1 = -EAGAIN ∧
      Event.setPower true fwC3.setOnOk ∈
        (Power.upstream_runtime_suspend fwC3 attachedActive).2.1) :=
  C3_poll_bound fwC3 attachedActive rfl rfl (by decide) rfl

/-- C4: a runtime resume in upstream.c invoked while system_state is
at or past SYSTEM_HALT fails immediately with the non-retryable
-ESHUTDOWN, performs no firmware calls and no wake-channel operations
(the event trace is empty) and leaves the device state unchanged. -/
theorem C4_resume_during_shutdown (st : Nat) (fw : ResumeFw) (s : Dev)
    (h : SYSTEM_HALT ≤ st) :
    Upstream.upstream_runtime_resume st fw s = (-ESHUTDOWN, [], s) := by
  simp [Upstream.upstream_runtime_resume, h]

theorem C4_resume_during_shutdown_witness :
    Upstream.upstream_runtime_resume 2 fwResumeOk attachedActive =
      (-ESHUTDOWN, [], attachedActive) :=
  C4_resume_during_shutdown 2 fwResumeOk attachedActive (by decide)

/-- C5: a prepare in power.c on a device that is not runtime active
(already runtime-suspended) attempts to disarm the wake GPE (success
leaves it disarmed); if disarming fails, prepare requests an immediate
resume of the device and returns the retryable -EAGAIN instead of
proceeding. -/
theorem C5_prepare_suspended (fw : PrepareFw) (s : Dev)
    (h : s.runtimeActive = false) :
    Event.disableGpe fw.disableOk ∈ (Power.upstream_prepare fw s).2.1 ∧
    (fw.disableOk = true → ((Power.upstream_prepare fw s).2.2).armed = false) ∧
    (fw.disableOk = false →
      (Power.upstream_prepare fw s).1 = -EAGAIN ∧
      Event.requestResumeSelf ∈ (Power.upstream_prepare fw s).2.1) := by
  cases hd : fw.disableOk <;>
    simp [Power.upstream_prepare, h, hd]

/-- A runtime-suspended device with the wake GPE armed, as left by a
successful runtime suspend. -/
def suspendedDev : Dev :=
  { powered := false, armed := true, runtimeActive := false, isPrepared := false,
    runtimeError := none, nhiNoresume := 0, d3coldAllowed := true }

/-- Prepare oracle whose GPE disarm call fails. -/
def fwPrepBad : PrepareFw := { disableOk := false }

theorem C5_prepare_suspended_witness :
    Event.disableGpe fwPrepBad.disableOk ∈
      (Power.upstream_prepare fwPrepBad suspendedDev).2.1 ∧
    (fwPrepBad.disableOk = true →
      ((Power.upstream_prepare fwPrepBad suspendedDev).2.2).armed = false) ∧
    (fwPrepBad.disableOk = false →
      (Power.upstream_prepare fwPrepBad suspendedDev).1 = -EAGAIN ∧
      Event.requestResumeSelf ∈ (Power.upstream_prepare fwPrepBad suspendedDev).2.1) :=
  C5_prepare_suspended fwPrepBad suspendedDev rfl

/-- C6: a runtime resume in upstream.c that is not refused for
shutdown always disarms the wake GPE strictly before issuing the
set-power(1) call; if disarming fails, a permanent noresume reference
is taken on the NHI device (disabling future runtime power
transitions) and the resume nevertheless proceeds to the power-on
call, returning 0 whenever the power-on call succeeds. -/
theorem C6_resume_disarm_first (st : Nat) (fw : ResumeFw) (s : Dev)
    (h : st < SYSTEM_HALT) :
    (∃ rest, (Upstream.upstream_runtime_resume st fw s).2.1 =
      Event.disableGpe fw.disableOk ::
        ((if fw.disableOk then [] else [Event.getNoresumeNhi]) ++
          Event.setPower true fw.setOnOk :: rest)) ∧
    (fw.disableOk = false →
      ((Upstream.upstream_runtime_resume st fw s).2.2).nhiNoresume =
        s.nhiNoresume + 1) ∧
    (fw.setOnOk = true → (Upstream.upstream_runtime_resume st fw s).1 = 0) := by
  have h' : ¬ SYSTEM_HALT ≤ st := Nat.not_le.mpr h
  refine ⟨?_, ?_, ?_⟩
  · cases hd : fw.disableOk <;> cases hon : fw.setOnOk
    · exact ⟨[], by simp [Upstream.upstream_runtime_resume, h', hd, hon]⟩
    · exact ⟨[Event.restoreState, Event.requestResumeChildren],
        by simp [Upstream.upstream_runtime_resume, h', hd, hon]⟩
    · exact ⟨[], by simp [Upstream.upstream_runtime_resume, h', hd, hon]⟩
    · exact ⟨[Event.restoreState, Event.requestResumeChildren],
        by simp [Upstream.upstream_runtime_resume, h', hd, hon]⟩
  · intro hd
    cases hon : fw.setOnOk <;>
      simp [Upstream.upstream_runtime_resume, h', hd, hon]
  · intro hon
    cases hd : fw.disableOk <;>
      simp [Upstream.upstream_runtime_resume, h', hd, hon]

/-- Resume oracle whose GPE disarm fails but whose power-on succeeds. -/
def fwResumeDisarmFail : ResumeFw :=
  { disableOk := false, setOnOk := true, genericOk := true }

theorem C6_resume_disarm_first_witness :
    (∃ rest, (Upstream.upstream_runtime_resume 0 fwResumeDisarmFail suspendedDev).2.1 =
      Event.disableGpe fwResumeDisarmFail.disableOk ::
        ((if fwResumeDisarmFail.disableOk then [] else [Event.getNoresumeNhi]) ++
          Event.setPower true fwResumeDisarmFail.setOnOk :: rest)) ∧
    (fwResumeDisarmFail.disableOk = false →
      ((Upstream.upstream_runtime_resume 0 fwResumeDisarmFail
          suspendedDev).2.2).nhiNoresume = suspendedDev.nhiNoresume + 1) ∧
    (fwResumeDisarmFail.setOnOk = true →
      (Upstream.upstream_runtime_resume 0 fwResumeDisarmFail suspendedDev).1 = 0) :=
  C6_resume_disarm_first 0 fwResumeDisarmFail suspendedDev (by decide)

/-- Recognizer for a firmware power-on call (set-power with argument 1). -/
def isSetPowerOn : Event → Bool
  | Event.setPower true _ => true
  | _ => false

/-- C7: a runtime resume in power.c whose set-power(1) call fails
returns the hard error -ENODEV immediately: the firmware power-on call
is issued exactly once (no retry), and neither the generic runtime
resume nor any child resume request is performed. -/
theorem C7_resume_poweron_hard_fail (fw : ResumeFw) (s : Dev)
    (h : fw.setOnOk = false) :
    (Power.upstream_runtime_resume fw s).1 = -ENODEV ∧
    ((Power.upstream_runtime_resume fw s).2.1.filter isSetPowerOn).length = 1 ∧
    Event.genericResume ∉ (Power.upstream_runtime_resume fw s).2.1 ∧
    Event.requestResumeChildren ∉ (Power.upstream_runtime_resume fw s).2.1 := by
  by_cases hp : s.isPrepared = true
  · simp [Power.upstream_runtime_resume, isSetPowerOn, hp, h]
  · rw [Bool.not_eq_true] at hp
    cases hd : fw.disableOk <;>
      simp [Power.upstream_runtime_resume, isSetPowerOn, hp, hd, h]

/-- Resume oracle whose power-on call fails. -/
def fwResumeOnFail : ResumeFw :=
  { disableOk := true, setOnOk := false, genericOk := true }

theorem C7_resume_poweron_hard_fail_witness :
    (Power.upstream_runtime_resume fwResumeOnFail suspendedDev).1 = -ENODEV ∧
    ((Power.upstream_runtime_resume fwResumeOnFail suspendedDev).2.1.filter
        isSetPowerOn).length = 1 ∧
    Event.genericResume ∉ (Power.upstream_runtime_resume fwResumeOnFail suspendedDev).2.1 ∧
    Event.requestResumeChildren ∉
      (Power.upstream_runtime_resume fwResumeOnFail suspendedDev).2.1 :=
  C7_resume_poweron_hard_fail fwResumeOnFail suspendedDev rfl

/-- C8: a runtime suspend in upstream.c on a port whose PCI power
capability forbids D3cold refuses immediately with the retryable
-EAGAIN, performing no state snapshot, no firmware call and no
wake-channel operation (empty event trace) and leaving the device
unchanged. -/
theorem C8_suspend_d3cold_refusal (fw : SuspendFw) (s : Dev)
    (h : s.d3coldAllowed = false) :
    Upstream.upstream_runtime_suspend fw s = (-EAGAIN, [], s) := by
  simp [Upstream.upstream_runtime_suspend, h]

/-- An otherwise active device whose PCI capability forbids D3cold. -/
def noD3coldDev : Dev := { attachedActive with d3coldAllowed := false }

theorem C8_suspend_d3cold_refusal_witness :
    Upstream.upstream_runtime_suspend fwSuspendOk noD3coldDev =
      (-EAGAIN, [], noD3coldDev) :=
  C8_suspend_d3cold_refusal fwSuspendOk noD3coldDev rfl

/-- C9: any attach in power.c in which a required firmware lookup
fails — the set method under both its older XRPE and newer TRPE
aliases, the XRIL get method, the XRIN wake GPE number, or the GPE
handler installation — aborts the whole power-domain attach: no
context is produced (tb->power stays null and no pm_domain callback
set is installed), so the device falls back to permanently powered
operation. -/
theorem C9_attach_abort (env : Power.InitEnv)
    (h : (env.xrpeOk = false ∧ env.trpeOk = false) ∨ env.xrilOk = false ∨
      env.xrinOk = false ∨ env.installOk = false) :
    Power.thunderbolt_power_init env = none := by
  unfold Power.thunderbolt_power_init
  split_ifs with h1 h2 h3 h4 h5 h6 h7
  · rfl
  · rfl
  · rfl
  · rfl
  · rfl
  · rfl
  · rfl
  · exfalso
    rcases h with hset | hx | hx | hx
    · exact h4 hset
    · exact h5 hx
    · exact h6 hx
    · exact h7 hx

/-- Attach environment in which the XRIL get-method lookup fails while
everything else succeeds. -/
def envXrilFail : Power.InitEnv :=
  { allocOk := true, nhiHandleOk := true, upstreamOk := true, xrpeOk := true,
    trpeOk := false, xrilOk := false, xrinOk := true, installOk := true }

theorem C9_attach_abort_witness :
    Power.thunderbolt_power_init envXrilFail = none :=
  C9_attach_abort envXrilFail (Or.inr (Or.inl rfl))

/-- C10: a complete in upstream.c on a device that was runtime
suspended before system sleep, whose set-power(0) reset pulse fails,
does not abort the operation: the wake GPE re-arm is still attempted,
the failure is recorded as -ENODEV in the device's runtime_error field
(so a later runtime resume observes it), and the callback reports no
error to the framework (it returns 0). -/
theorem C10_complete_reset_failure (fw : CompleteFw) (s : Dev)
    (hr : s.runtimeActive = false) (hset : fw.setOffOk = false) :
    (Upstream.upstream_complete fw s).1 = 0 ∧
    Event.enableGpe fw.enableOk ∈ (Upstream.upstream_complete fw s).2.1 ∧
    ((Upstream.upstream_complete fw s).2.2).runtimeError = some (-ENODEV) := by
  cases he : fw.enableOk <;>
    simp [Upstream.upstream_complete, hr, hset, he]

/-- Complete oracle whose reset pulse fails but whose GPE re-arm
succeeds. -/
def fwCompleteBad : CompleteFw := { setOffOk := false, enableOk := true }

theorem C10_complete_reset_failure_witness :
    (Upstream.upstream_complete fwCompleteBad suspendedDev).1 = 0 ∧
    Event.enableGpe fwCompleteBad.enableOk ∈
      (Upstream.upstream_complete fwCompleteBad suspendedDev).2.1 ∧
    ((Upstream.upstream_complete fwCompleteBad suspendedDev).2.2).runtimeError =
      some (-ENODEV) :=
  C10_complete_reset_failure fwCompleteBad suspendedDev rfl rfl
